import Mathlib

/-!
Shallow embedding of the payment and support-ticket lifecycle core of the
customer-engagement backend (Mongoose models `Payment` and `SupportRequest`
plus their pre-save hooks), with theorems settling the spec claims.

Times are Nat milliseconds since the epoch; JS `Date` differences divided by
3600000 (elapsed hours) are rationals.  Mongoose's modified-paths tracking is
embedded as a Boolean flag per path where a hook consults `isModified`:
setting a path to the value it already has does not mark it modified, and a
completed save clears the flags.
-/

/-- JS `a || b` on an optional string: `undefined` and the empty string are
falsy, so they fall through to the default. -/
def jsOrString (o : Option String) (d : String) : String :=
  match o with
  | some s => if s = "" then d else s
  | none => d

/-- JS truthiness of an optional string (`if (details.paymentId)`):
true exactly for a present, non-empty string. -/
def jsTruthy (o : Option String) : Bool :=
  match o with
  | some s => s ≠ ""
  | none => false

/-- JS `String(n).padStart(w, '0')`. -/
def padNum (w : Nat) (n : Nat) : String :=
  let s := toString n
  String.mk (List.replicate (w - s.length) '0') ++ s

/-- JS `Math.abs(dateA - dateB) / (1000 * 60 * 60)`: elapsed hours between two
millisecond timestamps, as an exact rational. -/
def elapsedHours (a b : Nat) : ℚ :=
  (Nat.dist a b : ℚ) / 3600000

/-! ## Payment model (`paymentSchema`) -/

/-- The `paymentSchema.status` enum. -/
inductive PayStatus where
  | pending
  | processing
  | success
  | failed
  | refunded
deriving DecidableEq, Repr

/-- The `refundDetails.status` enum. -/
inductive RefundStatus where
  | initiated
  | processing
  | completed
  | failed
deriving DecidableEq, Repr

/-- The `refundDetails` subdocument as written by `initiateRefund`. -/
structure RefundDetails where
  amount : ℚ
  reason : String
  date : Nat
  status : RefundStatus
deriving DecidableEq, Repr

/-- The fields of a `Payment` document that the lifecycle methods and the
pre-save hook read or write.  `statusModified` embeds Mongoose's
`isModified('status')` for the document's current unsaved modifications. -/
structure Payment where
  amount : ℚ
  status : PayStatus
  receiptNumber : Option String
  gatewayPaymentId : Option String
  gatewaySignature : Option String
  refundDetails : Option RefundDetails
  failureReason : Option String
  paidAt : Option Nat
  attempts : Nat
  statusModified : Bool
deriving DecidableEq, Repr

/-- Ambient values a save draws from the environment: `new Date()` (the
timestamp, and its year/month fields used in receipt numbers) and the
`Math.floor(Math.random() * 10000)` receipt suffix. -/
structure PayCtx where
  now : Nat
  year : Nat
  month : Nat
  random : Fin 10000
deriving DecidableEq, Repr

/-- The receipt number string built in the pre-save hook:
`REC${year}${month}${random}` with month padded to 2 and the random suffix
padded to 4 digits. -/
def mkReceiptNumber (ctx : PayCtx) : String :=
  "REC" ++ toString ctx.year ++ padNum 2 ctx.month ++ padNum 4 ctx.random.val

/-- First branch of `paymentSchema.pre('save')`: if status is success and no
receipt number exists, generate one and set `paidAt`. -/
def Payment.genReceipt (p : Payment) (ctx : PayCtx) : Payment :=
  if p.status = .success ∧ p.receiptNumber = none then
    { p with receiptNumber := some (mkReceiptNumber ctx), paidAt := some ctx.now }
  else p

/-- Second branch of `paymentSchema.pre('save')`: if the status path was
modified and the status is failed, increment `attempts`. -/
def Payment.bumpAttempts (p : Payment) : Payment :=
  if p.statusModified ∧ p.status = .failed then
    { p with attempts := p.attempts + 1 }
  else p

/-- Embeds `document.save()`: run the pre-save hook branches in order, then persist,
which clears the modified-paths state. -/
def Payment.save (p : Payment) (ctx : PayCtx) : Payment :=
  { (p.genReceipt ctx).bumpAttempts with statusModified := false }

/-- Mongoose assignment `this.status = s`: the path is marked modified only
when the new value differs from the current one. -/
def Payment.setStatus (p : Payment) (s : PayStatus) : Payment :=
  if p.status = s then p else { p with status := s, statusModified := true }

/-- The `details` argument of `updateStatus`. -/
structure UpdateDetails where
  paymentId : Option String
  signature : Option String
  reason : Option String
deriving DecidableEq, Repr

/-- Embeds `paymentSchema.methods.updateStatus(status, details)`: assigns the status
unconditionally; on success records `paidAt` and any truthy gateway ids; on
failed stores `details.reason || 'Payment failed'` and increments `attempts`;
then saves (running the pre-save hook). -/
def Payment.updateStatus (p : Payment) (status : PayStatus) (details : UpdateDetails)
    (ctx : PayCtx) : Payment :=
  let p := p.setStatus status
  let p :=
    if status = .success then
      let p := { p with paidAt := some ctx.now }
      let p := if jsTruthy details.paymentId then
          { p with gatewayPaymentId := details.paymentId } else p
      if jsTruthy details.signature then
          { p with gatewaySignature := details.signature } else p
    else if status = .failed then
      { p with failureReason := some (jsOrString details.reason "Payment failed"),
               attempts := p.attempts + 1 }
    else p
  p.save ctx

/-- Embeds `paymentSchema.methods.initiateRefund(amount, reason)`: throws unless the
status is success and the amount does not exceed the original amount;
otherwise writes `refundDetails` with status `initiated` and saves. -/
def Payment.initiateRefund (p : Payment) (amount : ℚ) (reason : String)
    (ctx : PayCtx) : Except String Payment :=
  if p.status ≠ .success then
    .error "Can only refund successful payments"
  else if amount > p.amount then
    .error "Refund amount cannot exceed payment amount"
  else
    .ok (Payment.save
      { p with refundDetails := some ⟨amount, reason, ctx.now, .initiated⟩ } ctx)

/-! ## Support-ticket model (`supportRequestSchema`) -/

/-- The `supportRequestSchema.status` enum (`open` is a Lean keyword, hence the
trailing underscore). -/
inductive TicketStatus where
  | open_
  | in_review
  | pending_customer
  | resolved
  | closed
deriving DecidableEq, Repr

/-- The `supportRequestSchema.priority` enum. -/
inductive Priority where
  | low
  | medium
  | high
  | urgent
deriving DecidableEq, Repr

/-- A stored comment author reference.  The schema stores an ObjectId ref;
`role` is only present when the referenced user document has been populated
in place of the id.  Every save path in the repository pushes and loads bare
ids (`addComment` receives `authorId`; the mutating routes use `findById`
without populating `comments.author`), so comments created by the lifecycle
operations carry `role := none`. -/
structure AuthorRef where
  id : Nat
  role : Option String
deriving DecidableEq, Repr

/-- A `comments` array entry. -/
structure Comment where
  text : String
  author : AuthorRef
  isInternal : Bool
  attachments : List (String × String)
  createdAt : Nat
deriving DecidableEq, Repr

/-- The `resolution` subdocument; `this.resolution = {}` clears all fields. -/
structure Resolution where
  text : Option String
  resolvedBy : Option Nat
  resolvedAt : Option Nat
deriving DecidableEq, Repr

/-- The `rating` subdocument written by `addRating`. -/
structure Rating where
  score : Nat
  feedback : String
  ratedAt : Nat
deriving DecidableEq, Repr

/-- The `sla` subdocument. -/
structure Sla where
  responseTime : Option ℚ
  resolutionTime : Option ℚ
  breached : Bool
  responseDeadline : Option Nat
  resolutionDeadline : Option Nat
deriving DecidableEq, Repr

/-- The fields of a `SupportRequest` document that the lifecycle methods and
the pre-save hook read or write.  `isNew` is Mongoose's new-document flag
(true until the first completed save). -/
structure SupportRequest where
  customerId : Nat
  ticketNumber : String
  priority : Priority
  status : TicketStatus
  assignedTo : Option Nat
  comments : List Comment
  resolution : Resolution
  rating : Option Rating
  sla : Sla
  firstResponseAt : Option Nat
  closedAt : Option Nat
  reopenedCount : Nat
  lastReopenedAt : Option Nat
  createdAt : Nat
  isNew : Bool
deriving DecidableEq, Repr

/-- Ambient values a ticket save draws from the environment: `new Date()`
(timestamp, year, month) and the `countDocuments()` result used for the
sequential ticket number. -/
structure TicketCtx where
  now : Nat
  year : Nat
  month : Nat
  count : Nat
deriving DecidableEq, Repr

/-- Response/resolution hour pair selected by the `switch (this.priority)`
in the pre-save hook (the `switch` covers every enum value, so the 24/72
initialisers are always overwritten). -/
def slaHours (p : Priority) : Nat × Nat :=
  match p with
  | .urgent => (2, 24)
  | .high => (4, 48)
  | .medium => (24, 72)
  | .low => (48, 120)

/-- Pre-save branch: generate `TKT${year}${month}${sequential}` for a new
document whose `ticketNumber` is still falsy (the empty string). -/
def SupportRequest.genTicketNumber (t : SupportRequest) (ctx : TicketCtx) :
    SupportRequest :=
  if t.isNew ∧ t.ticketNumber = "" then
    { t with ticketNumber :=
        "TKT" ++ toString ctx.year ++ padNum 2 ctx.month ++ padNum 5 (ctx.count + 1) }
  else t

/-- The `timestamps: true` schema option: `createdAt` is stamped when a new
document is saved. -/
def SupportRequest.applyTimestamps (t : SupportRequest) (ctx : TicketCtx) :
    SupportRequest :=
  if t.isNew then { t with createdAt := ctx.now } else t

/-- Pre-save branch: for a new document, set both SLA deadlines from the
priority table (`now + hours * 60 * 60 * 1000`). -/
def SupportRequest.setSlaDeadlines (t : SupportRequest) (ctx : TicketCtx) :
    SupportRequest :=
  if t.isNew then
    { t with sla :=
        { t.sla with
            responseDeadline := some (ctx.now + (slaHours t.priority).1 * 3600000)
            resolutionDeadline := some (ctx.now + (slaHours t.priority).2 * 3600000) } }
  else t

/-- The comment filter in the first-response branch:
`!c.isInternal || c.author.role === 'admin'`. -/
def qualifiesAsResponse (c : Comment) : Bool :=
  !c.isInternal || c.author.role == some "admin"

/-- Pre-save branch: if there are comments and no first response recorded,
take the first comment passing `qualifiesAsResponse`, record its timestamp as
`firstResponseAt` and derive `sla.responseTime` in elapsed hours. -/
def SupportRequest.trackFirstResponse (t : SupportRequest) : SupportRequest :=
  if t.comments ≠ [] ∧ t.firstResponseAt = none then
    match t.comments.filter qualifiesAsResponse with
    | [] => t
    | c :: _ =>
      { t with firstResponseAt := some c.createdAt,
               sla := { t.sla with responseTime := some (elapsedHours c.createdAt t.createdAt) } }
  else t

/-- Pre-save branch: if the status is resolved and `resolution.resolvedAt` is
still unset, stamp it and derive `sla.resolutionTime` in elapsed hours. -/
def SupportRequest.trackResolution (t : SupportRequest) (ctx : TicketCtx) :
    SupportRequest :=
  if t.status = .resolved ∧ t.resolution.resolvedAt = none then
    { t with resolution := { t.resolution with resolvedAt := some ctx.now },
             sla := { t.sla with resolutionTime := some (elapsedHours ctx.now t.createdAt) } }
  else t

/-- Pre-save branch: stamp `closedAt` on the first save with status closed. -/
def SupportRequest.trackClosure (t : SupportRequest) (ctx : TicketCtx) :
    SupportRequest :=
  if t.status = .closed ∧ t.closedAt = none then
    { t with closedAt := some ctx.now }
  else t

/-- Pre-save branch: set the breach flag when the response deadline has
passed without a first response, or the resolution deadline has passed while
the status is neither resolved nor closed.  The flag is only ever set, never
cleared. -/
def SupportRequest.checkBreach (t : SupportRequest) (ctx : TicketCtx) :
    SupportRequest :=
  let t :=
    match t.sla.responseDeadline with
    | some d =>
      if ctx.now > d ∧ t.firstResponseAt = none then
        { t with sla := { t.sla with breached := true } }
      else t
    | none => t
  match t.sla.resolutionDeadline with
  | some d =>
    if ctx.now > d ∧ t.status ≠ .resolved ∧ t.status ≠ .closed then
      { t with sla := { t.sla with breached := true } }
    else t
  | none => t

/-- Embeds `document.save()`: the pre-save hook branches in source order, after
which the document is no longer new. -/
def SupportRequest.save (t : SupportRequest) (ctx : TicketCtx) : SupportRequest :=
  let t := t.genTicketNumber ctx
  let t := t.applyTimestamps ctx
  let t := t.setSlaDeadlines ctx
  let t := t.trackFirstResponse
  let t := t.trackResolution ctx
  let t := t.trackClosure ctx
  let t := t.checkBreach ctx
  { t with isNew := false }

/-- Embeds `supportRequestSchema.methods.addComment(text, authorId, isInternal,
attachments)`: push the comment (author stored as the bare id) and save. -/
def SupportRequest.addComment (t : SupportRequest) (text : String) (authorId : Nat)
    (isInternal : Bool) (attachments : List (String × String)) (ctx : TicketCtx) :
    SupportRequest :=
  SupportRequest.save
    { t with comments := t.comments ++ [⟨text, ⟨authorId, none⟩, isInternal, attachments, ctx.now⟩] }
    ctx

/-- Embeds `supportRequestSchema.methods.assignToAgent(agentId)`: set the assignee,
force the status to in_review, save. -/
def SupportRequest.assignToAgent (t : SupportRequest) (agentId : Nat) (ctx : TicketCtx) :
    SupportRequest :=
  SupportRequest.save { t with assignedTo := some agentId, status := .in_review } ctx

/-- Embeds `supportRequestSchema.methods.resolve(resolutionText, resolvedById)`:
unconditionally set status resolved, overwrite the resolution record with the
new text, resolver and a fresh timestamp, and save. -/
def SupportRequest.resolve (t : SupportRequest) (resolutionText : String)
    (resolvedById : Nat) (ctx : TicketCtx) : SupportRequest :=
  SupportRequest.save
    { t with status := .resolved,
             resolution := ⟨some resolutionText, some resolvedById, some ctx.now⟩ }
    ctx

/-- Embeds `supportRequestSchema.methods.reopen(reason)`: from closed or resolved,
set status open, bump the reopen counter, stamp `lastReopenedAt`, clear the
resolution record and, when the reason is truthy, push a
`Ticket reopened: ...` comment authored as the owning customer; from any
other status only the save runs. -/
def SupportRequest.reopen (t : SupportRequest) (reason : String) (ctx : TicketCtx) :
    SupportRequest :=
  let t :=
    if t.status = .closed ∨ t.status = .resolved then
      let t := { t with status := .open_,
                        reopenedCount := t.reopenedCount + 1,
                        lastReopenedAt := some ctx.now,
                        resolution := ⟨none, none, none⟩ }
      if reason ≠ "" then
        { t with comments := t.comments ++
            [⟨"Ticket reopened: " ++ reason, ⟨t.customerId, none⟩, false, [], ctx.now⟩] }
      else t
    else t
  t.save ctx

/-- Embeds `supportRequestSchema.methods.addRating(score, feedback)`: throws unless
the status is resolved or closed; otherwise writes the rating and saves. -/
def SupportRequest.addRating (t : SupportRequest) (score : Nat) (feedback : String)
    (ctx : TicketCtx) : Except String SupportRequest :=
  if t.status ≠ .resolved ∧ t.status ≠ .closed then
    .error "Can only rate resolved or closed tickets"
  else
    .ok (SupportRequest.save { t with rating := some ⟨score, feedback, ctx.now⟩ } ctx)

/-! ## Concrete documents used as test inputs -/

/-- A save context: `new Date()` two hours after the epoch. -/
def exCtx : TicketCtx := ⟨7200000, 2026, 1, 0⟩

/-- A persisted open high-priority ticket, created at time 0, no comments,
deadlines 4h/48h from the priority table. -/
def exTicket : SupportRequest :=
  ⟨7, "TKT20260100001", .high, .open_, none, [], ⟨none, none, none⟩, none,
   ⟨none, none, false, some 14400000, some 172800000⟩, none, none, 0, none, 0, false⟩

/-- A persisted ticket that has already been resolved, with an existing
resolution record. -/
def exResolvedTicket : SupportRequest :=
  ⟨7, "TKT20260100001", .high, .resolved, some 5, [],
   ⟨some "Restarted the router", some 5, some 3600000⟩, none,
   ⟨none, none, false, some 14400000, some 172800000⟩, none, none, 0, none, 0, false⟩

/-- An unsaved new urgent ticket, as built by the create route before its
first save (`ticketNumber: 'temp'` is modelled by the falsy placeholder the
hook tests for). -/
def exNewTicket : SupportRequest :=
  ⟨7, "", .urgent, .open_, none, [], ⟨none, none, none⟩, none,
   ⟨none, none, false, none, none⟩, none, none, 0, none, 0, true⟩

/-- A persisted resolved ticket whose SLA breach flag is already set. -/
def exBreachedTicket : SupportRequest :=
  ⟨7, "TKT20260100002", .high, .resolved, some 5,
   [], ⟨some "Replaced the part", some 5, some 3600000⟩, none,
   ⟨none, none, true, some 14400000, some 172800000⟩, none, none, 0, none, 0, false⟩

/-- A payment save context. -/
def exPayCtx : PayCtx := ⟨1700000000000, 2026, 3, 42⟩

/-- A persisted pending payment of amount 100000, no attempts yet. -/
def exPendingPayment : Payment :=
  ⟨100000, .pending, none, none, none, none, none, none, 0, false⟩

/-- A persisted successful payment of amount 100000 with its receipt number
already assigned. -/
def exSuccessPayment : Payment :=
  ⟨100000, .success, some "REC2026030042", none, none, none, none, some 1000, 0, false⟩

/-- A successful payment not yet holding a receipt number (status was set to
success outside `updateStatus`, before any save). -/
def exSuccessNoReceipt : Payment :=
  ⟨100000, .success, none, none, none, none, none, none, 0, false⟩

/-! ## Frame lemmas for the payment save -/

@[simp] lemma genReceipt_status (p : Payment) (ctx : PayCtx) :
    (p.genReceipt ctx).status = p.status := by
  unfold Payment.genReceipt; split <;> rfl

@[simp] lemma genReceipt_amount (p : Payment) (ctx : PayCtx) :
    (p.genReceipt ctx).amount = p.amount := by
  unfold Payment.genReceipt; split <;> rfl

@[simp] lemma genReceipt_refundDetails (p : Payment) (ctx : PayCtx) :
    (p.genReceipt ctx).refundDetails = p.refundDetails := by
  unfold Payment.genReceipt; split <;> rfl

@[simp] lemma genReceipt_attempts (p : Payment) (ctx : PayCtx) :
    (p.genReceipt ctx).attempts = p.attempts := by
  unfold Payment.genReceipt; split <;> rfl

@[simp] lemma bumpAttempts_status (p : Payment) :
    p.bumpAttempts.status = p.status := by
  unfold Payment.bumpAttempts; split <;> rfl

@[simp] lemma bumpAttempts_amount (p : Payment) :
    p.bumpAttempts.amount = p.amount := by
  unfold Payment.bumpAttempts; split <;> rfl

@[simp] lemma bumpAttempts_refundDetails (p : Payment) :
    p.bumpAttempts.refundDetails = p.refundDetails := by
  unfold Payment.bumpAttempts; split <;> rfl

@[simp] lemma bumpAttempts_receiptNumber (p : Payment) :
    p.bumpAttempts.receiptNumber = p.receiptNumber := by
  unfold Payment.bumpAttempts; split <;> rfl

@[simp] lemma bumpAttempts_paidAt (p : Payment) :
    p.bumpAttempts.paidAt = p.paidAt := by
  unfold Payment.bumpAttempts; split <;> rfl

lemma paySave_status (p : Payment) (ctx : PayCtx) :
    (p.save ctx).status = p.status := by
  simp only [Payment.save]; simp

lemma paySave_refundDetails (p : Payment) (ctx : PayCtx) :
    (p.save ctx).refundDetails = p.refundDetails := by
  simp only [Payment.save]; simp

/-! ## Frame lemmas for the save pipeline

Each pre-save branch touches a small set of fields; these lemmas record the
fields it leaves alone, so that claim proofs can push projections through
`SupportRequest.save`. -/

@[simp] lemma genTicketNumber_status (t : SupportRequest) (ctx : TicketCtx) :
    (t.genTicketNumber ctx).status = t.status := by
  unfold SupportRequest.genTicketNumber; split <;> rfl

@[simp] lemma genTicketNumber_comments (t : SupportRequest) (ctx : TicketCtx) :
    (t.genTicketNumber ctx).comments = t.comments := by
  unfold SupportRequest.genTicketNumber; split <;> rfl

@[simp] lemma genTicketNumber_reopenedCount (t : SupportRequest) (ctx : TicketCtx) :
    (t.genTicketNumber ctx).reopenedCount = t.reopenedCount := by
  unfold SupportRequest.genTicketNumber; split <;> rfl

@[simp] lemma genTicketNumber_lastReopenedAt (t : SupportRequest) (ctx : TicketCtx) :
    (t.genTicketNumber ctx).lastReopenedAt = t.lastReopenedAt := by
  unfold SupportRequest.genTicketNumber; split <;> rfl

@[simp] lemma genTicketNumber_resolution (t : SupportRequest) (ctx : TicketCtx) :
    (t.genTicketNumber ctx).resolution = t.resolution := by
  unfold SupportRequest.genTicketNumber; split <;> rfl

@[simp] lemma genTicketNumber_sla (t : SupportRequest) (ctx : TicketCtx) :
    (t.genTicketNumber ctx).sla = t.sla := by
  unfold SupportRequest.genTicketNumber; split <;> rfl

@[simp] lemma genTicketNumber_createdAt (t : SupportRequest) (ctx : TicketCtx) :
    (t.genTicketNumber ctx).createdAt = t.createdAt := by
  unfold SupportRequest.genTicketNumber; split <;> rfl

@[simp] lemma genTicketNumber_isNew (t : SupportRequest) (ctx : TicketCtx) :
    (t.genTicketNumber ctx).isNew = t.isNew := by
  unfold SupportRequest.genTicketNumber; split <;> rfl

@[simp] lemma genTicketNumber_priority (t : SupportRequest) (ctx : TicketCtx) :
    (t.genTicketNumber ctx).priority = t.priority := by
  unfold SupportRequest.genTicketNumber; split <;> rfl

@[simp] lemma applyTimestamps_status (t : SupportRequest) (ctx : TicketCtx) :
    (t.applyTimestamps ctx).status = t.status := by
  unfold SupportRequest.applyTimestamps; split <;> rfl

@[simp] lemma applyTimestamps_comments (t : SupportRequest) (ctx : TicketCtx) :
    (t.applyTimestamps ctx).comments = t.comments := by
  unfold SupportRequest.applyTimestamps; split <;> rfl

@[simp] lemma applyTimestamps_reopenedCount (t : SupportRequest) (ctx : TicketCtx) :
    (t.applyTimestamps ctx).reopenedCount = t.reopenedCount := by
  unfold SupportRequest.applyTimestamps; split <;> rfl

@[simp] lemma applyTimestamps_lastReopenedAt (t : SupportRequest) (ctx : TicketCtx) :
    (t.applyTimestamps ctx).lastReopenedAt = t.lastReopenedAt := by
  unfold SupportRequest.applyTimestamps; split <;> rfl

@[simp] lemma applyTimestamps_resolution (t : SupportRequest) (ctx : TicketCtx) :
    (t.applyTimestamps ctx).resolution = t.resolution := by
  unfold SupportRequest.applyTimestamps; split <;> rfl

@[simp] lemma applyTimestamps_sla (t : SupportRequest) (ctx : TicketCtx) :
    (t.applyTimestamps ctx).sla = t.sla := by
  unfold SupportRequest.applyTimestamps; split <;> rfl

@[simp] lemma applyTimestamps_isNew (t : SupportRequest) (ctx : TicketCtx) :
    (t.applyTimestamps ctx).isNew = t.isNew := by
  unfold SupportRequest.applyTimestamps; split <;> rfl

@[simp] lemma applyTimestamps_priority (t : SupportRequest) (ctx : TicketCtx) :
    (t.applyTimestamps ctx).priority = t.priority := by
  unfold SupportRequest.applyTimestamps; split <;> rfl

lemma applyTimestamps_createdAt_new (t : SupportRequest) (ctx : TicketCtx)
    (h : t.isNew = true) : (t.applyTimestamps ctx).createdAt = ctx.now := by
  unfold SupportRequest.applyTimestamps; simp [h]

lemma applyTimestamps_createdAt_old (t : SupportRequest) (ctx : TicketCtx)
    (h : t.isNew = false) : (t.applyTimestamps ctx).createdAt = t.createdAt := by
  unfold SupportRequest.applyTimestamps; simp [h]

@[simp] lemma setSlaDeadlines_status (t : SupportRequest) (ctx : TicketCtx) :
    (t.setSlaDeadlines ctx).status = t.status := by
  unfold SupportRequest.setSlaDeadlines; split <;> rfl

@[simp] lemma setSlaDeadlines_comments (t : SupportRequest) (ctx : TicketCtx) :
    (t.setSlaDeadlines ctx).comments = t.comments := by
  unfold SupportRequest.setSlaDeadlines; split <;> rfl

@[simp] lemma setSlaDeadlines_reopenedCount (t : SupportRequest) (ctx : TicketCtx) :
    (t.setSlaDeadlines ctx).reopenedCount = t.reopenedCount := by
  unfold SupportRequest.setSlaDeadlines; split <;> rfl

@[simp] lemma setSlaDeadlines_lastReopenedAt (t : SupportRequest) (ctx : TicketCtx) :
    (t.setSlaDeadlines ctx).lastReopenedAt = t.lastReopenedAt := by
  unfold SupportRequest.setSlaDeadlines; split <;> rfl

@[simp] lemma setSlaDeadlines_resolution (t : SupportRequest) (ctx : TicketCtx) :
    (t.setSlaDeadlines ctx).resolution = t.resolution := by
  unfold SupportRequest.setSlaDeadlines; split <;> rfl

@[simp] lemma setSlaDeadlines_breached (t : SupportRequest) (ctx : TicketCtx) :
    (t.setSlaDeadlines ctx).sla.breached = t.sla.breached := by
  unfold SupportRequest.setSlaDeadlines; split <;> rfl

@[simp] lemma setSlaDeadlines_createdAt (t : SupportRequest) (ctx : TicketCtx) :
    (t.setSlaDeadlines ctx).createdAt = t.createdAt := by
  unfold SupportRequest.setSlaDeadlines; split <;> rfl

@[simp] lemma setSlaDeadlines_isNew (t : SupportRequest) (ctx : TicketCtx) :
    (t.setSlaDeadlines ctx).isNew = t.isNew := by
  unfold SupportRequest.setSlaDeadlines; split <;> rfl

lemma setSlaDeadlines_responseDeadline_new (t : SupportRequest) (ctx : TicketCtx)
    (h : t.isNew = true) :
    (t.setSlaDeadlines ctx).sla.responseDeadline =
      some (ctx.now + (slaHours t.priority).1 * 3600000) := by
  unfold SupportRequest.setSlaDeadlines; simp [h]

lemma setSlaDeadlines_resolutionDeadline_new (t : SupportRequest) (ctx : TicketCtx)
    (h : t.isNew = true) :
    (t.setSlaDeadlines ctx).sla.resolutionDeadline =
      some (ctx.now + (slaHours t.priority).2 * 3600000) := by
  unfold SupportRequest.setSlaDeadlines; simp [h]

lemma setSlaDeadlines_responseDeadline_old (t : SupportRequest) (ctx : TicketCtx)
    (h : t.isNew = false) :
    (t.setSlaDeadlines ctx).sla.responseDeadline = t.sla.responseDeadline := by
  unfold SupportRequest.setSlaDeadlines; simp [h]

lemma setSlaDeadlines_resolutionDeadline_old (t : SupportRequest) (ctx : TicketCtx)
    (h : t.isNew = false) :
    (t.setSlaDeadlines ctx).sla.resolutionDeadline = t.sla.resolutionDeadline := by
  unfold SupportRequest.setSlaDeadlines; simp [h]

@[simp] lemma trackFirstResponse_status (t : SupportRequest) :
    t.trackFirstResponse.status = t.status := by
  unfold SupportRequest.trackFirstResponse; repeat' split
  all_goals rfl

@[simp] lemma trackFirstResponse_comments (t : SupportRequest) :
    t.trackFirstResponse.comments = t.comments := by
  unfold SupportRequest.trackFirstResponse; repeat' split
  all_goals rfl

@[simp] lemma trackFirstResponse_reopenedCount (t : SupportRequest) :
    t.trackFirstResponse.reopenedCount = t.reopenedCount := by
  unfold SupportRequest.trackFirstResponse; repeat' split
  all_goals rfl

@[simp] lemma trackFirstResponse_lastReopenedAt (t : SupportRequest) :
    t.trackFirstResponse.lastReopenedAt = t.lastReopenedAt := by
  unfold SupportRequest.trackFirstResponse; repeat' split
  all_goals rfl

@[simp] lemma trackFirstResponse_resolution (t : SupportRequest) :
    t.trackFirstResponse.resolution = t.resolution := by
  unfold SupportRequest.trackFirstResponse; repeat' split
  all_goals rfl

@[simp] lemma trackFirstResponse_breached (t : SupportRequest) :
    t.trackFirstResponse.sla.breached = t.sla.breached := by
  unfold SupportRequest.trackFirstResponse; repeat' split
  all_goals rfl

@[simp] lemma trackFirstResponse_responseDeadline (t : SupportRequest) :
    t.trackFirstResponse.sla.responseDeadline = t.sla.responseDeadline := by
  unfold SupportRequest.trackFirstResponse; repeat' split
  all_goals rfl

@[simp] lemma trackFirstResponse_resolutionDeadline (t : SupportRequest) :
    t.trackFirstResponse.sla.resolutionDeadline = t.sla.resolutionDeadline := by
  unfold SupportRequest.trackFirstResponse; repeat' split
  all_goals rfl

@[simp] lemma trackFirstResponse_createdAt (t : SupportRequest) :
    t.trackFirstResponse.createdAt = t.createdAt := by
  unfold SupportRequest.trackFirstResponse; repeat' split
  all_goals rfl

@[simp] lemma trackFirstResponse_isNew (t : SupportRequest) :
    t.trackFirstResponse.isNew = t.isNew := by
  unfold SupportRequest.trackFirstResponse; repeat' split
  all_goals rfl

@[simp] lemma trackResolution_status (t : SupportRequest) (ctx : TicketCtx) :
    (t.trackResolution ctx).status = t.status := by
  unfold SupportRequest.trackResolution; split <;> rfl

@[simp] lemma trackResolution_comments (t : SupportRequest) (ctx : TicketCtx) :
    (t.trackResolution ctx).comments = t.comments := by
  unfold SupportRequest.trackResolution; split <;> rfl

@[simp] lemma trackResolution_reopenedCount (t : SupportRequest) (ctx : TicketCtx) :
    (t.trackResolution ctx).reopenedCount = t.reopenedCount := by
  unfold SupportRequest.trackResolution; split <;> rfl

@[simp] lemma trackResolution_lastReopenedAt (t : SupportRequest) (ctx : TicketCtx) :
    (t.trackResolution ctx).lastReopenedAt = t.lastReopenedAt := by
  unfold SupportRequest.trackResolution; split <;> rfl

@[simp] lemma trackResolution_breached (t : SupportRequest) (ctx : TicketCtx) :
    (t.trackResolution ctx).sla.breached = t.sla.breached := by
  unfold SupportRequest.trackResolution; split <;> rfl

@[simp] lemma trackResolution_responseDeadline (t : SupportRequest) (ctx : TicketCtx) :
    (t.trackResolution ctx).sla.responseDeadline = t.sla.responseDeadline := by
  unfold SupportRequest.trackResolution; split <;> rfl

@[simp] lemma trackResolution_resolutionDeadline (t : SupportRequest) (ctx : TicketCtx) :
    (t.trackResolution ctx).sla.resolutionDeadline = t.sla.resolutionDeadline := by
  unfold SupportRequest.trackResolution; split <;> rfl

@[simp] lemma trackResolution_createdAt (t : SupportRequest) (ctx : TicketCtx) :
    (t.trackResolution ctx).createdAt = t.createdAt := by
  unfold SupportRequest.trackResolution; split <;> rfl

@[simp] lemma trackResolution_isNew (t : SupportRequest) (ctx : TicketCtx) :
    (t.trackResolution ctx).isNew = t.isNew := by
  unfold SupportRequest.trackResolution; split <;> rfl

lemma trackResolution_resolution_of_not (t : SupportRequest) (ctx : TicketCtx)
    (h : ¬(t.status = .resolved ∧ t.resolution.resolvedAt = none)) :
    (t.trackResolution ctx).resolution = t.resolution := by
  unfold SupportRequest.trackResolution; simp [h]

@[simp] lemma trackClosure_status (t : SupportRequest) (ctx : TicketCtx) :
    (t.trackClosure ctx).status = t.status := by
  unfold SupportRequest.trackClosure; split <;> rfl

@[simp] lemma trackClosure_comments (t : SupportRequest) (ctx : TicketCtx) :
    (t.trackClosure ctx).comments = t.comments := by
  unfold SupportRequest.trackClosure; split <;> rfl

@[simp] lemma trackClosure_reopenedCount (t : SupportRequest) (ctx : TicketCtx) :
    (t.trackClosure ctx).reopenedCount = t.reopenedCount := by
  unfold SupportRequest.trackClosure; split <;> rfl

@[simp] lemma trackClosure_lastReopenedAt (t : SupportRequest) (ctx : TicketCtx) :
    (t.trackClosure ctx).lastReopenedAt = t.lastReopenedAt := by
  unfold SupportRequest.trackClosure; split <;> rfl

@[simp] lemma trackClosure_resolution (t : SupportRequest) (ctx : TicketCtx) :
    (t.trackClosure ctx).resolution = t.resolution := by
  unfold SupportRequest.trackClosure; split <;> rfl

@[simp] lemma trackClosure_sla (t : SupportRequest) (ctx : TicketCtx) :
    (t.trackClosure ctx).sla = t.sla := by
  unfold SupportRequest.trackClosure; split <;> rfl

@[simp] lemma trackClosure_createdAt (t : SupportRequest) (ctx : TicketCtx) :
    (t.trackClosure ctx).createdAt = t.createdAt := by
  unfold SupportRequest.trackClosure; split <;> rfl

@[simp] lemma trackClosure_isNew (t : SupportRequest) (ctx : TicketCtx) :
    (t.trackClosure ctx).isNew = t.isNew := by
  unfold SupportRequest.trackClosure; split <;> rfl

@[simp] lemma checkBreach_status (t : SupportRequest) (ctx : TicketCtx) :
    (t.checkBreach ctx).status = t.status := by
  simp only [SupportRequest.checkBreach]
  repeat' split
  all_goals rfl

@[simp] lemma checkBreach_comments (t : SupportRequest) (ctx : TicketCtx) :
    (t.checkBreach ctx).comments = t.comments := by
  simp only [SupportRequest.checkBreach]
  repeat' split
  all_goals rfl

@[simp] lemma checkBreach_reopenedCount (t : SupportRequest) (ctx : TicketCtx) :
    (t.checkBreach ctx).reopenedCount = t.reopenedCount := by
  simp only [SupportRequest.checkBreach]
  repeat' split
  all_goals rfl

@[simp] lemma checkBreach_lastReopenedAt (t : SupportRequest) (ctx : TicketCtx) :
    (t.checkBreach ctx).lastReopenedAt = t.lastReopenedAt := by
  simp only [SupportRequest.checkBreach]
  repeat' split
  all_goals rfl

@[simp] lemma checkBreach_resolution (t : SupportRequest) (ctx : TicketCtx) :
    (t.checkBreach ctx).resolution = t.resolution := by
  simp only [SupportRequest.checkBreach]
  repeat' split
  all_goals rfl

@[simp] lemma checkBreach_responseDeadline (t : SupportRequest) (ctx : TicketCtx) :
    (t.checkBreach ctx).sla.responseDeadline = t.sla.responseDeadline := by
  simp only [SupportRequest.checkBreach]
  repeat' split
  all_goals rfl

@[simp] lemma checkBreach_resolutionDeadline (t : SupportRequest) (ctx : TicketCtx) :
    (t.checkBreach ctx).sla.resolutionDeadline = t.sla.resolutionDeadline := by
  simp only [SupportRequest.checkBreach]
  repeat' split
  all_goals rfl

@[simp] lemma checkBreach_createdAt (t : SupportRequest) (ctx : TicketCtx) :
    (t.checkBreach ctx).createdAt = t.createdAt := by
  simp only [SupportRequest.checkBreach]
  repeat' split
  all_goals rfl

@[simp] lemma checkBreach_isNew (t : SupportRequest) (ctx : TicketCtx) :
    (t.checkBreach ctx).isNew = t.isNew := by
  simp only [SupportRequest.checkBreach]
  repeat' split
  all_goals rfl

lemma checkBreach_breached_mono (t : SupportRequest) (ctx : TicketCtx)
    (h : t.sla.breached = true) : (t.checkBreach ctx).sla.breached = true := by
  simp only [SupportRequest.checkBreach]
  repeat' split
  all_goals simp [h]

/-! ## Save-level frame lemmas -/

lemma save_status (t : SupportRequest) (ctx : TicketCtx) :
    (t.save ctx).status = t.status := by
  unfold SupportRequest.save; simp

lemma save_comments (t : SupportRequest) (ctx : TicketCtx) :
    (t.save ctx).comments = t.comments := by
  unfold SupportRequest.save; simp

lemma save_reopenedCount (t : SupportRequest) (ctx : TicketCtx) :
    (t.save ctx).reopenedCount = t.reopenedCount := by
  unfold SupportRequest.save; simp

lemma save_lastReopenedAt (t : SupportRequest) (ctx : TicketCtx) :
    (t.save ctx).lastReopenedAt = t.lastReopenedAt := by
  unfold SupportRequest.save; simp

lemma save_resolution (t : SupportRequest) (ctx : TicketCtx)
    (h : ¬(t.status = .resolved ∧ t.resolution.resolvedAt = none)) :
    (t.save ctx).resolution = t.resolution := by
  simp only [SupportRequest.save]
  simp [trackResolution_resolution_of_not
    (((t.genTicketNumber ctx).applyTimestamps ctx).setSlaDeadlines ctx).trackFirstResponse
    ctx (by simpa using h)]

lemma save_breached_mono (t : SupportRequest) (ctx : TicketCtx)
    (h : t.sla.breached = true) : (t.save ctx).sla.breached = true := by
  simp only [SupportRequest.save]
  exact checkBreach_breached_mono _ _ (by simpa using h)

lemma save_createdAt_new (t : SupportRequest) (ctx : TicketCtx)
    (h : t.isNew = true) : (t.save ctx).createdAt = ctx.now := by
  simp only [SupportRequest.save]
  simp [applyTimestamps_createdAt_new (t.genTicketNumber ctx) ctx (by simp [h])]

lemma save_responseDeadline_new (t : SupportRequest) (ctx : TicketCtx)
    (h : t.isNew = true) :
    (t.save ctx).sla.responseDeadline =
      some (ctx.now + (slaHours t.priority).1 * 3600000) := by
  simp only [SupportRequest.save]
  simp [setSlaDeadlines_responseDeadline_new ((t.genTicketNumber ctx).applyTimestamps ctx)
    ctx (by simp [h])]

lemma save_resolutionDeadline_new (t : SupportRequest) (ctx : TicketCtx)
    (h : t.isNew = true) :
    (t.save ctx).sla.resolutionDeadline =
      some (ctx.now + (slaHours t.priority).2 * 3600000) := by
  simp only [SupportRequest.save]
  simp [setSlaDeadlines_resolutionDeadline_new ((t.genTicketNumber ctx).applyTimestamps ctx)
    ctx (by simp [h])]

lemma save_responseDeadline_old (t : SupportRequest) (ctx : TicketCtx)
    (h : t.isNew = false) :
    (t.save ctx).sla.responseDeadline = t.sla.responseDeadline := by
  simp only [SupportRequest.save]
  simp [setSlaDeadlines_responseDeadline_old ((t.genTicketNumber ctx).applyTimestamps ctx)
    ctx (by simp [h])]

lemma save_resolutionDeadline_old (t : SupportRequest) (ctx : TicketCtx)
    (h : t.isNew = false) :
    (t.save ctx).sla.resolutionDeadline = t.sla.resolutionDeadline := by
  simp only [SupportRequest.save]
  simp [setSlaDeadlines_resolutionDeadline_old ((t.genTicketNumber ctx).applyTimestamps ctx)
    ctx (by simp [h])]

lemma save_isNew (t : SupportRequest) (ctx : TicketCtx) :
    (t.save ctx).isNew = false := rfl

/-! ## Claim theorems: payment lifecycle -/

/-- Claim C2, as stated, is false: a payment in the terminal status
`success` is moved to `failed` by `updateStatus('failed')`, which is neither
keeping the status nor the success-to-refunded refund flow. -/
theorem terminal_status_not_protected_cex :
    exSuccessPayment.status = PayStatus.success ∧
    (exSuccessPayment.updateStatus .failed ⟨none, none, none⟩ exPayCtx).status =
      PayStatus.failed := by
  decide

/-- Claim C2 (amended): terminal statuses are not protected.
`updateStatus(s, details)` sets the status to `s` unconditionally, from any
current status including `success` and `refunded`; `initiateRefund` never
performs a status transition at all (a successful call leaves the status
unchanged and only records `refundDetails`). -/
theorem updateStatus_unconditional_refund_keeps_status (p : Payment)
    (s : PayStatus) (details : UpdateDetails) (amount : ℚ) (reason : String)
    (ctx : PayCtx) :
    (p.updateStatus s details ctx).status = s ∧
    (∀ q, p.initiateRefund amount reason ctx = Except.ok q → q.status = p.status) := by
  constructor
  · simp only [Payment.updateStatus, paySave_status]
    split_ifs <;> simp_all [Payment.setStatus] <;> split_ifs <;> simp_all
  · intro q hq
    unfold Payment.initiateRefund at hq
    split_ifs at hq with h1 h2
    cases hq
    rw [paySave_status]

/-- Witness for the amended C2 statement at concrete inputs: a success
payment is moved to `processing` by `updateStatus`, and a successful refund
leaves the status `success`. -/
theorem updateStatus_unconditional_witness :
    (exSuccessPayment.updateStatus .processing ⟨none, none, none⟩ exPayCtx).status =
      PayStatus.processing ∧
    (∃ q, exSuccessPayment.initiateRefund 50000 "duplicate charge" exPayCtx =
        Except.ok q ∧ q.status = PayStatus.success) := by
  have H := updateStatus_unconditional_refund_keeps_status exSuccessPayment
    .processing ⟨none, none, none⟩ 50000 "duplicate charge" exPayCtx
  refine ⟨H.1, ⟨Payment.save
    { exSuccessPayment with
        refundDetails := some ⟨50000, "duplicate charge", exPayCtx.now, .initiated⟩ }
    exPayCtx, ?_, ?_⟩⟩
  · rfl
  · have := H.2 (Payment.save
      { exSuccessPayment with
          refundDetails := some ⟨50000, "duplicate charge", exPayCtx.now, .initiated⟩ }
      exPayCtx) rfl
    simpa using this

/-- Claim C3 is contradicted by the code: one `updateStatus('failed', ...)`
call on a pending payment does set status `failed` and store the failure
reason (with the default when absent), but it increments `attempts` twice:
once in the method body and once more in the pre-save hook, which fires
because the status path was modified. -/
theorem updateStatus_failed_double_increment :
    (exPendingPayment.updateStatus .failed ⟨none, none, some "card declined"⟩
        exPayCtx).status = PayStatus.failed ∧
    (exPendingPayment.updateStatus .failed ⟨none, none, some "card declined"⟩
        exPayCtx).failureReason = some "card declined" ∧
    (exPendingPayment.updateStatus .failed ⟨none, none, none⟩
        exPayCtx).failureReason = some "Payment failed" ∧
    exPendingPayment.attempts = 0 ∧
    (exPendingPayment.updateStatus .failed ⟨none, none, some "card declined"⟩
        exPayCtx).attempts = 2 := by
  decide

/-- Claim C6: `initiateRefund` rejects with a domain error exactly when the
status is not `success` or the amount exceeds the original amount (the throw
precedes any mutation, so the stored document is untouched); otherwise it
returns the saved payment whose `refundDetails` record holds the given
amount and reason with refund status `initiated`. -/
theorem initiateRefund_spec (p : Payment) (amount : ℚ) (reason : String)
    (ctx : PayCtx) :
    ((p.status ≠ .success ∨ amount > p.amount) →
      ∃ e, p.initiateRefund amount reason ctx = Except.error e) ∧
    (p.status = .success → amount ≤ p.amount →
      ∃ q, p.initiateRefund amount reason ctx = Except.ok q ∧
        q.refundDetails = some ⟨amount, reason, ctx.now, RefundStatus.initiated⟩) := by
  constructor
  · intro h
    unfold Payment.initiateRefund
    split_ifs with h1 h2
    · exact ⟨_, rfl⟩
    · exact ⟨_, rfl⟩
    · rcases h with h | h
      · exact absurd h h1
      · exact absurd h h2
  · intro hs hle
    unfold Payment.initiateRefund
    rw [if_neg (by simp [hs]), if_neg (by simpa using hle)]
    exact ⟨_, rfl, by rw [paySave_refundDetails]⟩

/-- Witness for C6 at the spec scenario: amount 100000, refund 150000 is
rejected, refund 50000 is accepted with an `initiated` refund record. -/
theorem initiateRefund_spec_witness :
    (∃ e, exSuccessPayment.initiateRefund 150000 "overcharge" exPayCtx =
        Except.error e) ∧
    (∃ q, exSuccessPayment.initiateRefund 50000 "overcharge" exPayCtx =
        Except.ok q ∧
      q.refundDetails =
        some ⟨50000, "overcharge", exPayCtx.now, RefundStatus.initiated⟩) := by
  refine ⟨(initiateRefund_spec exSuccessPayment 150000 "overcharge" exPayCtx).1
      (Or.inr (by decide)),
    (initiateRefund_spec exSuccessPayment 50000 "overcharge" exPayCtx).2
      (by decide) (by decide)⟩

/-- Claim C8: the receipt number is generated at the first save in which the
status is `success` (format `REC` + year + zero-padded month + 4-digit
suffix), is not generated by any earlier save, and once present survives
every subsequent save unchanged. -/
theorem receiptNumber_once_and_stable (p : Payment) (ctx : PayCtx) (r : String) :
    (p.status = .success → p.receiptNumber = none →
      (p.save ctx).receiptNumber =
        some ("REC" ++ toString ctx.year ++ padNum 2 ctx.month ++
          padNum 4 ctx.random.val) ∧
      (p.save ctx).paidAt = some ctx.now) ∧
    (p.status ≠ .success → p.receiptNumber = none →
      (p.save ctx).receiptNumber = none) ∧
    (p.receiptNumber = some r → (p.save ctx).receiptNumber = some r) := by
  refine ⟨?_, ?_, ?_⟩ <;> intro h
  · intro hn
    simp [Payment.save, Payment.genReceipt, Payment.bumpAttempts, mkReceiptNumber, h, hn]
  · intro hn
    simp [Payment.save, Payment.genReceipt, h, hn]
  · simp [Payment.save, Payment.genReceipt, h]

/-- Witness for C8: a success save stamps `REC2026030042`, and a further save
of a payment already carrying that receipt number leaves it unchanged. -/
theorem receiptNumber_once_witness :
    (exSuccessNoReceipt.save exPayCtx).receiptNumber = some "REC2026030042" ∧
    (exSuccessPayment.save exPayCtx).receiptNumber = some "REC2026030042" := by
  constructor
  · have H := ((receiptNumber_once_and_stable exSuccessNoReceipt exPayCtx "x").1
      (by decide) (by decide)).1
    exact H.trans (by decide)
  · exact (receiptNumber_once_and_stable exSuccessPayment exPayCtx
      "REC2026030042").2.2 (by decide)

/-! ## Claim theorems: ticket lifecycle -/

/-- Claim C1, as stated, is false: `resolve` on an already-resolved ticket is
not rejected — it succeeds and overwrites the existing resolution record with
the new text, resolver and a fresh timestamp. -/
theorem resolve_already_resolved_not_rejected_cex :
    exResolvedTicket.status = TicketStatus.resolved ∧
    exResolvedTicket.resolution.text = some "Restarted the router" ∧
    (exResolvedTicket.resolve "Issued a replacement" 9 exCtx).status =
      TicketStatus.resolved ∧
    (exResolvedTicket.resolve "Issued a replacement" 9 exCtx).resolution =
      ⟨some "Issued a replacement", some 9, some exCtx.now⟩ := by
  decide

/-- Claim C1 (amended): `resolve` applied to an already-resolved ticket does
not fail; it keeps status `resolved` and replaces the stored resolution
record with the new text, resolver id and the current timestamp. -/
theorem resolve_on_resolved_overwrites (t : SupportRequest) (text : String)
    (resolvedById : Nat) (ctx : TicketCtx) (_h : t.status = TicketStatus.resolved) :
    (t.resolve text resolvedById ctx).status = TicketStatus.resolved ∧
    (t.resolve text resolvedById ctx).resolution =
      ⟨some text, some resolvedById, some ctx.now⟩ := by
  unfold SupportRequest.resolve
  constructor
  · rw [save_status]
  · rw [save_resolution _ _ (by simp)]

/-- Witness for the amended C1 statement at a concrete resolved ticket. -/
theorem resolve_on_resolved_overwrites_witness :
    exResolvedTicket.status = TicketStatus.resolved ∧
    ((exResolvedTicket.resolve "Sent a technician" 9 exCtx).status =
        TicketStatus.resolved ∧
     (exResolvedTicket.resolve "Sent a technician" 9 exCtx).resolution =
        ⟨some "Sent a technician", some 9, some exCtx.now⟩) :=
  ⟨by decide,
   resolve_on_resolved_overwrites exResolvedTicket "Sent a technician" 9 exCtx
     (by decide)⟩

/-- Claim C4 is contradicted by the code: resolving an open ticket exactly
two elapsed hours after creation does set status `resolved` and fill the
resolution record, but `sla.resolutionTime` stays unset — `resolve` pre-fills
`resolution.resolvedAt`, so the pre-save branch guarded by
`!this.resolution.resolvedAt` that would compute the elapsed hours never
fires. -/
theorem resolve_leaves_resolutionTime_unset :
    (exTicket.resolve "Replaced the faulty unit" 5 exCtx).status =
      TicketStatus.resolved ∧
    (exTicket.resolve "Replaced the faulty unit" 5 exCtx).resolution =
      ⟨some "Replaced the faulty unit", some 5, some exCtx.now⟩ ∧
    elapsedHours exCtx.now exTicket.createdAt = 2 ∧
    (exTicket.resolve "Replaced the faulty unit" 5 exCtx).sla.resolutionTime =
      none := by
  refine ⟨by decide, by decide, ?_, by decide⟩
  norm_num [elapsedHours, exCtx, exTicket, Nat.dist]

/-- Claim C5: saving a new ticket stamps `createdAt` and sets both SLA
deadlines to `createdAt` plus the fixed priority table — urgent (2h, 24h),
high (4h, 48h), medium (24h, 72h), low (48h, 120h) — and no later save ever
recomputes them. -/
theorem sla_deadlines_from_priority_table_once (t : SupportRequest)
    (ctx : TicketCtx) (h : t.isNew = true) :
    (t.save ctx).createdAt = ctx.now ∧
    (t.priority = .urgent →
      (t.save ctx).sla.responseDeadline = some ((t.save ctx).createdAt + 2 * 3600000) ∧
      (t.save ctx).sla.resolutionDeadline = some ((t.save ctx).createdAt + 24 * 3600000)) ∧
    (t.priority = .high →
      (t.save ctx).sla.responseDeadline = some ((t.save ctx).createdAt + 4 * 3600000) ∧
      (t.save ctx).sla.resolutionDeadline = some ((t.save ctx).createdAt + 48 * 3600000)) ∧
    (t.priority = .medium →
      (t.save ctx).sla.responseDeadline = some ((t.save ctx).createdAt + 24 * 3600000) ∧
      (t.save ctx).sla.resolutionDeadline = some ((t.save ctx).createdAt + 72 * 3600000)) ∧
    (t.priority = .low →
      (t.save ctx).sla.responseDeadline = some ((t.save ctx).createdAt + 48 * 3600000) ∧
      (t.save ctx).sla.resolutionDeadline = some ((t.save ctx).createdAt + 120 * 3600000)) ∧
    (∀ ctx2, ((t.save ctx).save ctx2).sla.responseDeadline =
        (t.save ctx).sla.responseDeadline ∧
      ((t.save ctx).save ctx2).sla.resolutionDeadline =
        (t.save ctx).sla.resolutionDeadline) := by
  refine ⟨save_createdAt_new t ctx h, ?_, ?_, ?_, ?_, ?_⟩
  · intro hp
    rw [save_responseDeadline_new t ctx h, save_resolutionDeadline_new t ctx h,
      save_createdAt_new t ctx h, hp]
    exact ⟨rfl, rfl⟩
  · intro hp
    rw [save_responseDeadline_new t ctx h, save_resolutionDeadline_new t ctx h,
      save_createdAt_new t ctx h, hp]
    exact ⟨rfl, rfl⟩
  · intro hp
    rw [save_responseDeadline_new t ctx h, save_resolutionDeadline_new t ctx h,
      save_createdAt_new t ctx h, hp]
    exact ⟨rfl, rfl⟩
  · intro hp
    rw [save_responseDeadline_new t ctx h, save_resolutionDeadline_new t ctx h,
      save_createdAt_new t ctx h, hp]
    exact ⟨rfl, rfl⟩
  · intro ctx2
    exact ⟨save_responseDeadline_old _ _ (save_isNew t ctx),
      save_resolutionDeadline_old _ _ (save_isNew t ctx)⟩

/-- Witness for C5: a new urgent ticket saved at time 5000 gets deadlines
5000 + 2h and 5000 + 24h. -/
theorem sla_deadlines_witness :
    (exNewTicket.save ⟨5000, 2026, 1, 3⟩).sla.responseDeadline =
      some (5000 + 2 * 3600000) ∧
    (exNewTicket.save ⟨5000, 2026, 1, 3⟩).sla.resolutionDeadline =
      some (5000 + 24 * 3600000) := by
  have H := sla_deadlines_from_priority_table_once exNewTicket ⟨5000, 2026, 1, 3⟩
    (by decide)
  have H2 := H.2.1 (by decide)
  rw [H.1] at H2
  exact H2

/-- Claim C7: with a non-empty reason, `reopen` from resolved or closed sets
status `open`, clears the resolution record, increments the reopen counter by
exactly one, stamps `lastReopenedAt`, and appends a reopen comment authored
as the owning customer; from `open` or `in_review` it leaves status, reopen
counter, resolution record and comment sequence unchanged. -/
theorem reopen_spec (t : SupportRequest) (reason : String) (ctx : TicketCtx)
    (hr : reason ≠ "") :
    ((t.status = TicketStatus.resolved ∨ t.status = TicketStatus.closed) →
      (t.reopen reason ctx).status = TicketStatus.open_ ∧
      (t.reopen reason ctx).resolution = ⟨none, none, none⟩ ∧
      (t.reopen reason ctx).reopenedCount = t.reopenedCount + 1 ∧
      (t.reopen reason ctx).lastReopenedAt = some ctx.now ∧
      (t.reopen reason ctx).comments = t.comments ++
        [⟨"Ticket reopened: " ++ reason, ⟨t.customerId, none⟩, false, [], ctx.now⟩]) ∧
    ((t.status = TicketStatus.open_ ∨ t.status = TicketStatus.in_review) →
      (t.reopen reason ctx).status = t.status ∧
      (t.reopen reason ctx).reopenedCount = t.reopenedCount ∧
      (t.reopen reason ctx).resolution = t.resolution ∧
      (t.reopen reason ctx).comments = t.comments) := by
  constructor
  · intro hs
    rcases hs with h | h <;>
      simp [SupportRequest.reopen, h, hr, save_status, save_comments,
        save_reopenedCount, save_lastReopenedAt, save_resolution]
  · intro hs
    rcases hs with h | h <;>
      simp [SupportRequest.reopen, h, save_status, save_comments,
        save_reopenedCount, save_lastReopenedAt, save_resolution]

/-- Witness for C7: reopening a concrete resolved ticket yields status open,
a cleared resolution record, reopen counter 1, and the appended reopen
comment; reopening a concrete open ticket changes none of those fields. -/
theorem reopen_spec_witness :
    ((exResolvedTicket.reopen "still broken" exCtx).status = TicketStatus.open_ ∧
     (exResolvedTicket.reopen "still broken" exCtx).resolution = ⟨none, none, none⟩ ∧
     (exResolvedTicket.reopen "still broken" exCtx).reopenedCount = 1) ∧
    ((exTicket.reopen "still broken" exCtx).status = TicketStatus.open_ ∧
     (exTicket.reopen "still broken" exCtx).reopenedCount = 0 ∧
     (exTicket.reopen "still broken" exCtx).comments = []) := by
  have H1 := (reopen_spec exResolvedTicket "still broken" exCtx (by decide)).1
    (Or.inl (by decide))
  have H2 := (reopen_spec exTicket "still broken" exCtx (by decide)).2
    (Or.inl (by decide))
  exact ⟨⟨H1.1, H1.2.1, H1.2.2.1⟩, ⟨H2.1.trans (by decide), H2.2.1, H2.2.2.2⟩⟩

/-- Claim C9 is contradicted by the code at its admin-internal case: on a
ticket with no comments and no recorded response, adding an internal comment
authored by an admin (the author is stored as a bare user id, which is how
`addComment` and every mutating route supply it, so the stored reference
carries no `role` and the hook's `c.author.role === 'admin'` test cannot
match) appends the comment but leaves `firstResponseAt` unset, while adding a
non-internal comment does set `firstResponseAt` to the comment timestamp. -/
theorem internal_admin_comment_no_first_response :
    exTicket.comments = [] ∧
    exTicket.firstResponseAt = none ∧
    (exTicket.addComment "Looking into it" 3 true [] exCtx).comments.length = 1 ∧
    (exTicket.addComment "Looking into it" 3 true [] exCtx).firstResponseAt = none ∧
    (exTicket.addComment "Hello, we are on it" 3 false [] exCtx).firstResponseAt =
      some exCtx.now := by
  decide

/-- Claim C10: once `sla.breached` is true it stays true across every
lifecycle operation — `addComment`, `assignToAgent`, `resolve`, `reopen`, a
bare save, and a successful `addRating`; no code path ever clears the
flag. -/
theorem sla_breached_monotone (t : SupportRequest) (ctx : TicketCtx)
    (h : t.sla.breached = true) (text : String) (authorId : Nat)
    (isInternal : Bool) (attachments : List (String × String)) (agentId : Nat)
    (rtext : String) (rid : Nat) (reason : String) (score : Nat)
    (feedback : String) :
    (t.addComment text authorId isInternal attachments ctx).sla.breached = true ∧
    (t.assignToAgent agentId ctx).sla.breached = true ∧
    (t.resolve rtext rid ctx).sla.breached = true ∧
    (t.reopen reason ctx).sla.breached = true ∧
    (t.save ctx).sla.breached = true ∧
    (∀ q, t.addRating score feedback ctx = Except.ok q → q.sla.breached = true) := by
  refine ⟨?_, ?_, ?_, ?_, ?_, ?_⟩
  · exact save_breached_mono _ _ (by simpa using h)
  · exact save_breached_mono _ _ (by simpa using h)
  · exact save_breached_mono _ _ (by simpa using h)
  · simp only [SupportRequest.reopen]
    split
    · split
      · exact save_breached_mono _ _ (by simpa using h)
      · exact save_breached_mono _ _ (by simpa using h)
    · exact save_breached_mono _ _ (by simpa using h)
  · exact save_breached_mono _ _ h
  · intro q hq
    unfold SupportRequest.addRating at hq
    split_ifs at hq
    cases hq
    exact save_breached_mono _ _ (by simpa using h)

/-- Witness for C10 at a concrete breached resolved ticket: the flag stays
set through resolve and reopen. -/
theorem sla_breached_monotone_witness :
    exBreachedTicket.sla.breached = true ∧
    (exBreachedTicket.resolve "done" 5 exCtx).sla.breached = true ∧
    (exBreachedTicket.reopen "again" exCtx).sla.breached = true := by
  have H := sla_breached_monotone exBreachedTicket exCtx (by decide) "t" 1 false
    [] 2 "done" 5 "again" 4 "fb"
  exact ⟨by decide, H.2.2.1, H.2.2.2.1⟩
